import Mathlib

/-!
Verification development for the `rosa` repository: a shallow embedding of
the `rosa list addons` command (`cmd/list/addon/cmd.go`) and of the cluster
provisioning / identity-role orchestration core described by the project
specification (Resource Provisioner, Rollback Coordinator, Convergence
Poller, Provisioning Orchestrator, Cluster Request Builder).
-/

namespace Rosa

/-! ## The `rosa list addons` command (`cmd/list/addon/cmd.go`) -/

/-- One entry returned by `OCMClient.GetAvailableAddOns`. -/
structure AddOnResource where
  addOnId : String
  addOnName : String
  available : Bool
deriving DecidableEq, Repr

/-- One entry returned by `OCMClient.GetClusterAddOns`. -/
structure ClusterAddOn where
  addOnId : String
  addOnName : String
  state : String
deriving DecidableEq, Repr

/-- The part of a `cmv1.Cluster` the command reads: its state string. -/
structure Cluster where
  state : String
deriving DecidableEq, Repr

/-- `cmv1.ClusterStateReady`. -/
def clusterStateReady : String := "ready"

/-- Calls the command issues against its collaborators, in order. -/
inductive CallEvent
  | validKeyCheck
  | getAvailableAddOns
  | getCluster
  | getClusterAddOns
deriving DecidableEq, Repr

/-- A line of terminal output produced through the reporter or the tabwriter. -/
inductive OutLine
  | errorLine (msg : String)
  | infoLine (msg : String)
  | headerLine (cols : List String)
  | rowLine (cols : List String)
deriving DecidableEq, Repr

/-- Responses of the OCM backend consumed by `run`.
`isValidClusterKey` models `ocm.IsValidClusterKey`, which lives outside the
sample; the command only observes its boolean answer. -/
structure OcmEnv where
  isValidClusterKey : String → Bool
  getAvailableAddOns : Except String (List AddOnResource)
  getCluster : Except String Cluster
  getClusterAddOns : Except String (List ClusterAddOn)

/-- Observable outcome of one invocation of `run`: the process exit code,
the backend calls issued, and the rendered output lines. -/
structure CmdResult where
  exitCode : Nat
  calls : List CallEvent
  output : List OutLine
deriving DecidableEq, Repr

/-- The availability column computed in the add-on table loop. -/
def availabilityText (b : Bool) : String :=
  if b then "available" else "unavailable"

/-- Shallow embedding of `run` in `cmd/list/addon/cmd.go`.  Each `os.Exit`
becomes the recorded exit code; a normal return of `run` is exit code 0.
Go's short-circuit `clusterKey != "" && !ocm.IsValidClusterKey(clusterKey)`
means the validity check runs only for a non-empty key. -/
def runAddons (env : OcmEnv) (clusterKey : String) : CmdResult :=
  if clusterKey != "" && !(env.isValidClusterKey clusterKey) then
    { exitCode := 1, calls := [.validKeyCheck],
      output := [.errorLine "cluster key is not valid"] }
  else if clusterKey == "" then
    match env.getAvailableAddOns with
    | .error _ =>
      { exitCode := 1, calls := [.getAvailableAddOns],
        output := [.errorLine "failed to fetch add-ons"] }
    | .ok addOnResources =>
      if addOnResources.isEmpty then
        { exitCode := 0, calls := [.getAvailableAddOns],
          output := [.infoLine "there are no add-ons available"] }
      else
        { exitCode := 0, calls := [.getAvailableAddOns],
          output := .headerLine ["ID", "NAME", "AVAILABILITY"] ::
            addOnResources.map fun a =>
              .rowLine [a.addOnId, a.addOnName, availabilityText a.available] }
  else
    match env.getCluster with
    | .error _ =>
      { exitCode := 1, calls := [.validKeyCheck, .getCluster],
        output := [.errorLine "failed to get cluster"] }
    | .ok cluster =>
      if cluster.state != clusterStateReady then
        { exitCode := 1, calls := [.validKeyCheck, .getCluster],
          output := [.errorLine "cluster is not yet ready"] }
      else
        match env.getClusterAddOns with
        | .error _ =>
          { exitCode := 1, calls := [.validKeyCheck, .getCluster, .getClusterAddOns],
            output := [.errorLine "failed to get add-ons for cluster"] }
        | .ok clusterAddOns =>
          if clusterAddOns.isEmpty then
            { exitCode := 0, calls := [.validKeyCheck, .getCluster, .getClusterAddOns],
              output := [.infoLine "there are no add-ons installed on cluster"] }
          else
            { exitCode := 0, calls := [.validKeyCheck, .getCluster, .getClusterAddOns],
              output := .headerLine ["ID", "NAME", "STATE"] ::
                clusterAddOns.map fun a => .rowLine [a.addOnId, a.addOnName, a.state] }

/-- An environment whose `GetAvailableAddOns` call fails. -/
def envFetchFail : OcmEnv :=
  { isValidClusterKey := fun _ => true
    getAvailableAddOns := .error "backend unavailable"
    getCluster := .error "not queried"
    getClusterAddOns := .error "not queried" }

/-- An environment exposing one available add-on and no cluster. -/
def envOneAddOn : OcmEnv :=
  { isValidClusterKey := fun _ => true
    getAvailableAddOns := .ok [{ addOnId := "a1", addOnName := "alpha", available := true }]
    getCluster := .error "not queried"
    getClusterAddOns := .error "not queried" }

/-- An environment whose cluster exists but is still installing. -/
def envNotReady : OcmEnv :=
  { isValidClusterKey := fun key => key == "mycluster"
    getAvailableAddOns := .error "not queried"
    getCluster := .ok { state := "installing" }
    getClusterAddOns := .ok [] }

/-! ## Provisioning core

The orchestration engine of §§2–4 of the specification (Resource
Provisioner, Rollback Coordinator, Convergence Poller, Provisioning
Orchestrator, Cluster Request Builder) is not part of the source sample;
each definition below is modelled from the specification's words. -/

/-- Kind of an identity resource, in the dependency order of §4.2:
OIDC identity provider, then account-wide roles, then operator roles. -/
inductive ResKind
  | oidcProvider
  | accountRole
  | operatorRole
deriving DecidableEq, Repr

/-- Dependency depth of a resource kind (§4.2's creation order). -/
def kindIdx : ResKind → Nat
  | .oidcProvider => 0
  | .accountRole => 1
  | .operatorRole => 2

/-- Status tag an Inspector assigns to a ResourcePlan entry (§3). -/
inductive PlanStatus
  | existing
  | toCreate
  | versionMismatch
deriving DecidableEq, Repr

/-- Modelled from the spec: one ResourcePlan entry — a logical resource
name, its kind, and the Inspector's status tag. -/
structure PlanEntry where
  name : String
  kind : ResKind
  status : PlanStatus
deriving DecidableEq, Repr

/-- Modelled from the spec: a realized identity/trust object (§3) —
logical name, cloud-native identifier, kind, owned-by-this-run flag. -/
structure ProvisionedResource where
  name : String
  resId : String
  kind : ResKind
  owned : Bool
deriving DecidableEq, Repr

/-- Plan entries rearranged into §4.2's dependency order: all OIDC
provider entries, then account roles, then operator roles. -/
def orderByKind (plan : List PlanEntry) : List PlanEntry :=
  plan.filter (fun e => e.kind == .oidcProvider) ++
    plan.filter (fun e => e.kind == .accountRole) ++
      plan.filter (fun e => e.kind == .operatorRole)

/-- Outcome of the Provisioner: the create calls issued (in order), the
ProvisionedResources appended to the run (in order), and the error of the
first failing create, if any. -/
structure ProvisionOutcome where
  calls : List PlanEntry
  created : List ProvisionedResource
  err : Option String
deriving Repr

/-- Modelled from the spec (§4.2): walk the ordered entries; each ToCreate
entry gets a create call; success appends a ProvisionedResource with
owned = true before moving on; the first failure stops further creation. -/
def provisionGo (create : PlanEntry → Except String String) :
    List PlanEntry → ProvisionOutcome
  | [] => { calls := [], created := [], err := none }
  | e :: rest =>
    if e.status == PlanStatus.toCreate then
      match create e with
      | .error msg => { calls := [e], created := [], err := some msg }
      | .ok rid =>
        let r := provisionGo create rest
        { calls := e :: r.calls
          created := { name := e.name, resId := rid, kind := e.kind, owned := true } :: r.created
          err := r.err }
    else provisionGo create rest

/-- Modelled from the spec: the Resource Provisioner (§4.2) — realizes the
ToCreate entries of a ResourcePlan in dependency order. -/
def provision (create : PlanEntry → Except String String)
    (plan : List PlanEntry) : ProvisionOutcome :=
  provisionGo create (orderByKind plan)

/-- Outcome of the Rollback Coordinator: the resources a delete call was
issued for (in order) and those whose delete call errored. -/
structure RollbackOutcome where
  attempts : List ProvisionedResource
  failures : List ProvisionedResource
deriving DecidableEq, Repr

/-- Modelled from the spec (§4.6): walk a resource list; owned entries get
an independent delete attempt (an error is recorded, not propagated);
entries with owned = false are never touched. -/
def rollbackGo (del : ProvisionedResource → Option String) :
    List ProvisionedResource → RollbackOutcome
  | [] => { attempts := [], failures := [] }
  | r :: rest =>
    if r.owned then
      let res := rollbackGo del rest
      match del r with
      | some _ => { attempts := r :: res.attempts, failures := r :: res.failures }
      | none => { attempts := r :: res.attempts, failures := res.failures }
    else rollbackGo del rest

/-- Modelled from the spec: the Rollback Coordinator (§4.6) — deletes the
run's owned resources in strict reverse creation order, attempting every
entry, and returns the entries that could not be deleted. -/
def rollbackRun (del : ProvisionedResource → Option String)
    (resources : List ProvisionedResource) : RollbackOutcome :=
  rollbackGo del resources.reverse

/-- Cluster status as polled from the managed service (§4.5); `ready` and
`errorState` are the terminal states. -/
inductive ClusterStatus
  | pending
  | installing
  | ready
  | errorState
deriving DecidableEq, Repr

/-- What the Convergence Poller reports back to the Orchestrator. -/
inductive PollOutcome
  | success
  | failure
  | timeout
deriving DecidableEq, Repr

/-- Modelled from the spec: the Convergence Poller (§4.5) — repeatedly
query the status at successive ticks until a terminal success state, a
terminal failure state, or the deadline (a poll budget) elapses.
`status t` is the cluster status observed by the poll at tick `t`, after
the call-site bounded transient-retry of §4.5 has resolved. -/
def pollLoop (status : Nat → ClusterStatus) : Nat → Nat → PollOutcome
  | _, 0 => .timeout
  | t, fuel + 1 =>
    match status t with
    | .ready => .success
    | .errorState => .failure
    | _ => pollLoop status (t + 1) fuel

/-- The Orchestrator's states (§4.4). -/
inductive St
  | planning
  | provisioning
  | submitting
  | converging
  | verifying
  | done
  | rollingBack
  | failed
deriving DecidableEq, Repr

/-- Modelled from the spec: the §4.4 state machine as the sequence of
states a run visits, given the outcome of each stage.  Any stage failure
routes to RollingBack and then Failed; only the full success path reaches
Done. -/
def orchTrace (planOk provOk submitOk : Bool) (poll : PollOutcome)
    (verifyOk : Bool) : List St :=
  St.planning ::
    if !planOk then [St.rollingBack, St.failed]
    else St.provisioning ::
      if !provOk then [St.rollingBack, St.failed]
      else St.submitting ::
        if !submitOk then [St.rollingBack, St.failed]
        else St.converging ::
          match poll with
          | .success =>
            St.verifying ::
              if verifyOk then [St.done] else [St.rollingBack, St.failed]
          | _ => [St.rollingBack, St.failed]

/-- Events the core emits through the Run Reporter interface (§6): stage
transitions and per-resource outcomes.  The CLI layer alone renders them. -/
inductive ReporterEvent
  | stageEntered (s : St)
  | resourceOutcome (name : String) (resId : String) (owned : Bool)
deriving DecidableEq, Repr

/-- The stage-transition content of a reporter event, if any. -/
def eventStage : ReporterEvent → Option St
  | .stageEntered s => some s
  | _ => none

/-- The resource-outcome content of a reporter event, if any. -/
def eventResource : ReporterEvent → Option (String × String × Bool)
  | .resourceOutcome n i o => some (n, i, o)
  | _ => none

/-- Resource-outcome events for a list of provisioned resources. -/
def resourceEvents (rs : List ProvisionedResource) : List ReporterEvent :=
  rs.map fun r => .resourceOutcome r.name r.resId r.owned

/-- The collaborators and stage outcomes a single orchestrated run
consumes: the Inspector's plan (and whether it was complete), the cloud
backend's create and delete calls, the managed-service submit answer, the
polled status stream, the poll deadline, and the verification outcome. -/
structure CoreEnv where
  plan : List PlanEntry
  planComplete : Bool
  create : PlanEntry → Except String String
  submit : Except String String
  status : Nat → ClusterStatus
  deadline : Nat
  verifyOk : Bool
  del : ProvisionedResource → Option String

/-- Everything a run produces: the states visited, the reporter events
emitted, the resources created, the rollback failures (empty when no
rollback ran), and the cluster identifier on success. -/
structure CoreRun where
  states : List St
  events : List ReporterEvent
  created : List ProvisionedResource
  rollbackFailures : List ProvisionedResource
  clusterId : Option String

/-- Modelled from the spec: the Provisioning Orchestrator (§4.4) — runs
Planning, Provisioning, Submitting, Converging and Verifying in order,
emitting a reporter event at each state entered and one per resource
outcome; any stage failure hands the created-so-far list to the Rollback
Coordinator and the run ends Failed. -/
def orchRun (env : CoreEnv) : CoreRun :=
  if !env.planComplete then
    { states := [.planning, .rollingBack, .failed]
      events := [.stageEntered .planning, .stageEntered .rollingBack, .stageEntered .failed]
      created := []
      rollbackFailures := (rollbackRun env.del []).failures
      clusterId := none }
  else
    let pr := provision env.create env.plan
    if pr.err.isSome then
      { states := [.planning, .provisioning, .rollingBack, .failed]
        events := [.stageEntered .planning, .stageEntered .provisioning] ++
          resourceEvents pr.created ++
            [.stageEntered .rollingBack, .stageEntered .failed]
        created := pr.created
        rollbackFailures := (rollbackRun env.del pr.created).failures
        clusterId := none }
    else
      match env.submit with
      | .error _ =>
        { states := [.planning, .provisioning, .submitting, .rollingBack, .failed]
          events := [.stageEntered .planning, .stageEntered .provisioning] ++
            resourceEvents pr.created ++
              [.stageEntered .submitting, .stageEntered .rollingBack, .stageEntered .failed]
          created := pr.created
          rollbackFailures := (rollbackRun env.del pr.created).failures
          clusterId := none }
      | .ok cid =>
        match pollLoop env.status 0 env.deadline with
        | .success =>
          if env.verifyOk then
            { states := [.planning, .provisioning, .submitting, .converging, .verifying, .done]
              events := [.stageEntered .planning, .stageEntered .provisioning] ++
                resourceEvents pr.created ++
                  [.stageEntered .submitting, .stageEntered .converging,
                    .stageEntered .verifying, .stageEntered .done]
              created := pr.created
              rollbackFailures := []
              clusterId := some cid }
          else
            { states := [.planning, .provisioning, .submitting, .converging,
                .verifying, .rollingBack, .failed]
              events := [.stageEntered .planning, .stageEntered .provisioning] ++
                resourceEvents pr.created ++
                  [.stageEntered .submitting, .stageEntered .converging,
                    .stageEntered .verifying, .stageEntered .rollingBack, .stageEntered .failed]
              created := pr.created
              rollbackFailures := (rollbackRun env.del pr.created).failures
              clusterId := none }
        | _ =>
          { states := [.planning, .provisioning, .submitting, .converging, .rollingBack, .failed]
            events := [.stageEntered .planning, .stageEntered .provisioning] ++
              resourceEvents pr.created ++
                [.stageEntered .submitting, .stageEntered .converging,
                  .stageEntered .rollingBack, .stageEntered .failed]
            created := pr.created
            rollbackFailures := (rollbackRun env.del pr.created).failures
            clusterId := none }

/-! ## Cluster Request Builder (§4.3) -/

/-- Input of the builder: user intent plus the finalized state of the
identity resources, reduced to what the §4.3 checks read. -/
structure BuildInput where
  clusterName : String
  computeNodes : Nat
  envelopeMin : Nat
  envelopeMax : Nat
  delegatedCredentialMode : Bool
  resourcesFinalized : Bool
deriving Repr

/-- Backend limit on cluster-name length assumed by the naming check. -/
def maxClusterNameLen : Nat := 54

/-- A character the backend accepts in a cluster name. -/
def nameCharOk (c : Char) : Bool :=
  c.isLower || c.isDigit || c == '-'

/-- §4.3: compute sizing lies within the envelope for the region/tier. -/
def sizingOk (i : BuildInput) : Bool :=
  decide (i.envelopeMin ≤ i.computeNodes) && decide (i.computeNodes ≤ i.envelopeMax)

/-- §4.3: delegated-credential mode requires every identity resource to be
Reused/Created at this point. -/
def securityOk (i : BuildInput) : Bool :=
  !i.delegatedCredentialMode || i.resourcesFinalized

/-- §4.3: the name meets the backend's length/character constraints. -/
def namingOk (i : BuildInput) : Bool :=
  i.clusterName != "" && decide (i.clusterName.length ≤ maxClusterNameLen) &&
    i.clusterName.all nameCharOk

/-- The cross-field constraints the builder validates. -/
inductive Violation
  | sizingOutOfEnvelope
  | securityModeInconsistent
  | namingInvalid
deriving DecidableEq, Repr

/-- Whether the input violates a given constraint. -/
def violationHolds (i : BuildInput) : Violation → Bool
  | .sizingOutOfEnvelope => !sizingOk i
  | .securityModeInconsistent => !securityOk i
  | .namingInvalid => !namingOk i

/-- An input is valid when none of the three constraints is violated. -/
def inputValid (i : BuildInput) : Bool :=
  sizingOk i && securityOk i && namingOk i

/-- The managed-service creation payload (the fields the checks touch). -/
structure CreatePayload where
  clusterName : String
  computeNodes : Nat
  delegatedCredentialMode : Bool
deriving DecidableEq, Repr

/-- Modelled from the spec: the Cluster Request Builder (§4.3) — a pure
function from the input to either a creation payload or a single
validation error carrying all violated constraints at once. -/
def buildRequest (i : BuildInput) : Except (List Violation) CreatePayload :=
  let vs : List Violation :=
    (if sizingOk i then [] else [.sizingOutOfEnvelope]) ++
      (if securityOk i then [] else [.securityModeInconsistent]) ++
        (if namingOk i then [] else [.namingInvalid])
  if vs.isEmpty then
    .ok { clusterName := i.clusterName, computeNodes := i.computeNodes
          delegatedCredentialMode := i.delegatedCredentialMode }
  else .error vs

/-! ## Concrete fixtures used by witnesses and counterexamples -/

/-- A plan whose five entries all exist already (Scenario C of §8). -/
def planAllExisting : List PlanEntry :=
  [ { name := "oidc provider", kind := .oidcProvider, status := .existing },
    { name := "account role installer", kind := .accountRole, status := .existing },
    { name := "operator role ingress", kind := .operatorRole, status := .existing },
    { name := "operator role csi", kind := .operatorRole, status := .existing },
    { name := "operator role cloud-credential", kind := .operatorRole, status := .existing } ]

/-- A backend whose create calls always succeed with a derived identifier. -/
def createAlwaysOk : PlanEntry → Except String String :=
  fun e => .ok ("arn:" ++ e.name)

/-- A mixed resource list: one resource owned by this run, one pre-existing. -/
def mixedResources : List ProvisionedResource :=
  [ { name := "oidc provider", resId := "arn:oidc", kind := .oidcProvider, owned := true },
    { name := "account role installer", resId := "arn:acct", kind := .accountRole, owned := false } ]

/-- A delete backend that fails exactly on the OIDC provider. -/
def delFailsOnOidc : ProvisionedResource → Option String :=
  fun r => if r.kind == ResKind.oidcProvider then some "delete rejected" else none

/-- A run environment that reaches Converging and then times out: the
cluster status stays `installing` forever. -/
def envTimeout : CoreEnv :=
  { plan := [ { name := "oidc provider", kind := .oidcProvider, status := .toCreate } ]
    planComplete := true
    create := createAlwaysOk
    submit := .ok "cluster-123"
    status := fun _ => .installing
    deadline := 3
    verifyOk := true
    del := fun _ => none }

/-- An invalid builder input violating the sizing and naming constraints
at the same time, with the security constraint satisfied. -/
def badInput : BuildInput :=
  { clusterName := "Bad_Name!", computeNodes := 1, envelopeMin := 2,
    envelopeMax := 10, delegatedCredentialMode := false, resourcesFinalized := false }

/-! ## Theorems -/

/-- The delete attempts of the coordinator are exactly the owned entries,
whatever the delete backend answers. -/
theorem rollbackGo_attempts (del : ProvisionedResource → Option String) :
    ∀ rs : List ProvisionedResource,
      (rollbackGo del rs).attempts = rs.filter (fun r => r.owned) := by
  intro rs
  induction rs with
  | nil => rfl
  | cons r rest ih =>
    cases h : r.owned with
    | false => simp [rollbackGo, h, ih]
    | true => cases hd : del r <;> simp [rollbackGo, h, hd, ih]

/-- The failure list is the attempts whose delete call errored. -/
theorem rollbackGo_failures (del : ProvisionedResource → Option String) :
    ∀ rs : List ProvisionedResource,
      (rollbackGo del rs).failures =
        (rollbackGo del rs).attempts.filter (fun r => (del r).isSome) := by
  intro rs
  induction rs with
  | nil => rfl
  | cons r rest ih =>
    cases h : r.owned with
    | false => simp [rollbackGo, h, ih]
    | true => cases hd : del r <;> simp [rollbackGo, h, hd, ih]

/-- C1: the Rollback Coordinator issues delete calls only for
ProvisionedResources whose owned-by-this-run flag is true; a resource with
owned = false never receives a delete. -/
theorem rollback_only_owned (del : ProvisionedResource → Option String)
    (rs : List ProvisionedResource) (r : ProvisionedResource)
    (hr : r ∈ (rollbackRun del rs).attempts) : r.owned = true := by
  rw [rollbackRun, rollbackGo_attempts] at hr
  exact (List.mem_filter.mp hr).2

/-- Witness for C1 at a concrete mixed resource list. -/
theorem rollback_only_owned_witness :
    ({ name := "oidc provider", resId := "arn:oidc", kind := .oidcProvider,
        owned := true } : ProvisionedResource) ∈
        (rollbackRun delFailsOnOidc mixedResources).attempts ∧
      ({ name := "oidc provider", resId := "arn:oidc", kind := .oidcProvider,
          owned := true } : ProvisionedResource).owned = true :=
  ⟨by decide, rollback_only_owned delFailsOnOidc mixedResources _ (by decide)⟩

/-- C4: the Rollback Coordinator attempts a delete on every owned entry —
the attempt list is the owned entries in reverse order, independent of any
delete failures — and its failure list is exactly the attempts whose
delete call errored. -/
theorem rollback_attempts_all_failures_exact
    (del : ProvisionedResource → Option String) (rs : List ProvisionedResource) :
    (rollbackRun del rs).attempts = rs.reverse.filter (fun r => r.owned) ∧
      (rollbackRun del rs).failures =
        (rollbackRun del rs).attempts.filter (fun r => (del r).isSome) := by
  exact ⟨rollbackGo_attempts del rs.reverse, rollbackGo_failures del rs.reverse⟩

/-- Every create call the Provisioner issues comes from the ordered entry
list, in order. -/
theorem provisionGo_calls_sublist (create : PlanEntry → Except String String) :
    ∀ l : List PlanEntry, (provisionGo create l).calls.Sublist l := by
  intro l
  induction l with
  | nil => simp [provisionGo]
  | cons e rest ih =>
    cases h : e.status == PlanStatus.toCreate with
    | false =>
      simp only [provisionGo, h, Bool.false_eq_true, if_false]
      exact ih.cons e
    | true =>
      simp only [provisionGo, h, if_true]
      cases hc : create e with
      | error msg => exact (List.nil_sublist rest).cons₂ e
      | ok rid => exact ih.cons₂ e

/-- Every element of a kind-filtered plan has that kind. -/
theorem mem_filter_kind {plan : List PlanEntry} {k : ResKind} {e : PlanEntry}
    (h : e ∈ plan.filter (fun x => x.kind == k)) : e.kind = k := by
  have h2 := (List.mem_filter.mp h).2
  simpa using h2

/-- The reordered plan is sorted by dependency depth. -/
theorem orderByKind_pairwise (plan : List PlanEntry) :
    List.Pairwise (fun a b : PlanEntry => kindIdx a.kind ≤ kindIdx b.kind)
      (orderByKind plan) := by
  rw [orderByKind]
  rw [List.pairwise_append, List.pairwise_append]
  refine ⟨⟨?_, ?_, ?_⟩, ?_, ?_⟩
  · apply List.pairwise_of_forall_mem_list
    intro a ha b hb
    rw [mem_filter_kind ha, mem_filter_kind hb]
  · apply List.pairwise_of_forall_mem_list
    intro a ha b hb
    rw [mem_filter_kind ha, mem_filter_kind hb]
  · intro a ha b hb
    rw [mem_filter_kind ha, mem_filter_kind hb]
    exact Nat.zero_le 1
  · apply List.pairwise_of_forall_mem_list
    intro a ha b hb
    rw [mem_filter_kind ha, mem_filter_kind hb]
  · intro a ha b hb
    rw [mem_filter_kind hb]
    rcases List.mem_append.mp ha with h2 | h2
    · rw [mem_filter_kind h2]; exact Nat.zero_le 2
    · rw [mem_filter_kind h2]; exact Nat.le_succ 1

/-- Every resource the Provisioner records carries owned = true. -/
theorem provisionGo_created_owned (create : PlanEntry → Except String String) :
    ∀ l : List PlanEntry, ∀ r ∈ (provisionGo create l).created, r.owned = true := by
  intro l
  induction l with
  | nil => simp [provisionGo]
  | cons e rest ih =>
    cases h : e.status == PlanStatus.toCreate with
    | false =>
      simp only [provisionGo, h, Bool.false_eq_true, if_false]
      exact ih
    | true =>
      simp only [provisionGo, h, if_true]
      cases hc : create e with
      | error msg => simp
      | ok rid =>
        intro r hr
        rcases List.mem_cons.mp hr with h2 | h2
        · rw [h2]
        · exact ih r h2

/-- C2: the Provisioner issues its create calls in the fixed dependency
order — OIDC identity provider, then account-wide roles, then
operator-scoped roles — and the Rollback Coordinator deletes the
resources the run created in exactly the reverse of the creation order. -/
theorem provision_order_rollback_reverse (create : PlanEntry → Except String String)
    (del : ProvisionedResource → Option String) (plan : List PlanEntry) :
    List.Pairwise (fun a b : PlanEntry => kindIdx a.kind ≤ kindIdx b.kind)
        (provision create plan).calls ∧
      (rollbackRun del (provision create plan).created).attempts =
        (provision create plan).created.reverse := by
  constructor
  · exact (orderByKind_pairwise plan).sublist
      (provisionGo_calls_sublist create (orderByKind plan))
  · rw [rollbackRun, rollbackGo_attempts]
    apply List.filter_eq_self.mpr
    intro r hr
    exact provisionGo_created_owned create (orderByKind plan) r (List.mem_reverse.mp hr)

/-- A plan segment with no ToCreate entry triggers no create call. -/
theorem provisionGo_calls_nil (create : PlanEntry → Except String String) :
    ∀ l : List PlanEntry, (∀ e ∈ l, e.status ≠ PlanStatus.toCreate) →
      (provisionGo create l).calls = [] := by
  intro l
  induction l with
  | nil => intro _; rfl
  | cons e rest ih =>
    intro h
    have he : (e.status == PlanStatus.toCreate) = false := by
      simpa using h e (List.mem_cons_self e rest)
    simp only [provisionGo, he, Bool.false_eq_true, if_false]
    exact ih fun x hx => h x (List.mem_cons_of_mem e hx)

/-- Reordering the plan by kind preserves membership. -/
theorem mem_orderByKind {plan : List PlanEntry} {e : PlanEntry}
    (h : e ∈ orderByKind plan) : e ∈ plan := by
  rw [orderByKind] at h
  rcases List.mem_append.mp h with h2 | h2
  · rcases List.mem_append.mp h2 with h3 | h3 <;> exact (List.mem_filter.mp h3).1
  · exact (List.mem_filter.mp h2).1

/-- C3: when every entry of the ResourcePlan already exists (all marked for
reuse), the Provisioning stage issues zero create calls to the cloud
backend. -/
theorem provision_idempotent (create : PlanEntry → Except String String)
    (plan : List PlanEntry) (h : ∀ e ∈ plan, e.status = PlanStatus.existing) :
    (provision create plan).calls = [] := by
  rw [provision]
  apply provisionGo_calls_nil
  intro e he
  rw [h e (mem_orderByKind he)]
  intro hcontra
  exact PlanStatus.noConfusion hcontra

/-- Witness for C3: the five-resource all-existing plan of Scenario C. -/
theorem provision_idempotent_witness :
    (∀ e ∈ planAllExisting, e.status = PlanStatus.existing) ∧
      (provision createAlwaysOk planAllExisting).calls = [] :=
  ⟨by decide, provision_idempotent createAlwaysOk planAllExisting (by decide)⟩

/-- The states a run visits are an instance of the §4.4 state machine,
driven by the success of each stage. -/
theorem orchRun_states_eq (env : CoreEnv) :
    (orchRun env).states =
      orchTrace env.planComplete (provision env.create env.plan).err.isNone
        env.submit.isOk (pollLoop env.status 0 env.deadline) env.verifyOk := by
  cases hp : env.planComplete with
  | false => simp [orchRun, orchTrace, hp]
  | true =>
    cases he : (provision env.create env.plan).err with
    | some msg => simp [orchRun, orchTrace, hp, he]
    | none =>
      cases hs : env.submit with
      | error msg => simp [orchRun, orchTrace, hp, he, hs, Except.isOk, Except.toBool]
      | ok cid =>
        cases hq : pollLoop env.status 0 env.deadline with
        | success =>
          cases hv : env.verifyOk <;>
            simp [orchRun, orchTrace, hp, he, hs, hq, hv, Except.isOk, Except.toBool]
        | failure => simp [orchRun, orchTrace, hp, he, hs, hq, Except.isOk, Except.toBool]
        | timeout => simp [orchRun, orchTrace, hp, he, hs, hq, Except.isOk, Except.toBool]

/-- Every instance of the §4.4 state machine is duplicate-free, and once
RollingBack appears the trace ends in Failed and never contains Done. -/
theorem orchTrace_forward_only (a b c : Bool) (p : PollOutcome) (v : Bool) :
    (orchTrace a b c p v).Nodup ∧
      (St.rollingBack ∈ orchTrace a b c p v →
        (orchTrace a b c p v).getLast? = some St.failed ∧
          St.done ∉ orchTrace a b c p v) := by
  cases a <;> cases b <;> cases c <;> cases p <;> cases v <;> decide

/-- C5: when the Convergence Poller's deadline elapses with the cluster
status still non-terminal, the run transitions to RollingBack and never
reaches Done. -/
theorem deadline_timeout_rolls_back (env : CoreEnv)
    (hplan : env.planComplete = true)
    (hprov : (provision env.create env.plan).err = none)
    (cid : String) (hsub : env.submit = Except.ok cid)
    (ht : pollLoop env.status 0 env.deadline = PollOutcome.timeout) :
    St.rollingBack ∈ (orchRun env).states ∧ St.done ∉ (orchRun env).states := by
  refine ⟨?_, ?_⟩ <;> simp [orchRun, hplan, hprov, hsub, ht]

/-- Witness for C5: a run whose cluster stays `installing` past the
deadline. -/
theorem deadline_timeout_rolls_back_witness :
    envTimeout.planComplete = true ∧
      (provision envTimeout.create envTimeout.plan).err = none ∧
      envTimeout.submit = Except.ok "cluster-123" ∧
      pollLoop envTimeout.status 0 envTimeout.deadline = PollOutcome.timeout ∧
      (St.rollingBack ∈ (orchRun envTimeout).states ∧
        St.done ∉ (orchRun envTimeout).states) :=
  ⟨rfl, rfl, rfl, rfl,
    deadline_timeout_rolls_back envTimeout rfl rfl "cluster-123" rfl rfl⟩

/-- C6: the Orchestrator is forward-only — no state is re-entered once
left — and a run that ever entered RollingBack terminates in Failed and
never reaches Done, even when rollback fully succeeds. -/
theorem forward_only_failed_after_rollback (env : CoreEnv) :
    (orchRun env).states.Nodup ∧
      (St.rollingBack ∈ (orchRun env).states →
        (orchRun env).states.getLast? = some St.failed ∧
          St.done ∉ (orchRun env).states) := by
  rw [orchRun_states_eq]
  exact orchTrace_forward_only _ _ _ _ _

/-- Witness for C6 at a concrete run that rolls back after a timeout. -/
theorem forward_only_failed_after_rollback_witness :
    (orchRun envTimeout).states.Nodup ∧
      (St.rollingBack ∈ (orchRun envTimeout).states →
        (orchRun envTimeout).states.getLast? = some St.failed ∧
          St.done ∉ (orchRun envTimeout).states) :=
  forward_only_failed_after_rollback envTimeout

/-- Resource-outcome events carry no stage transitions. -/
theorem resourceEvents_stage (rs : List ProvisionedResource) :
    (resourceEvents rs).filterMap eventStage = [] := by
  induction rs with
  | nil => rfl
  | cons r rest ih =>
    simp only [resourceEvents, List.map_cons, List.filterMap_cons, eventStage]
    simpa [resourceEvents] using ih

/-- Resource-outcome events carry exactly the resource outcomes. -/
theorem resourceEvents_resource (rs : List ProvisionedResource) :
    (resourceEvents rs).filterMap eventResource =
      rs.map fun r => (r.name, r.resId, r.owned) := by
  induction rs with
  | nil => rfl
  | cons r rest ih => simp [resourceEvents, eventResource] at ih ⊢; exact ih

/-- C8: the core hands all stage-transition and resource-outcome
information to its caller solely as Run Reporter events: the
stage-transition content of the emitted event stream is exactly the list
of states the run visited, and its resource-outcome content is exactly
the list of resources the run recorded. -/
theorem core_reports_only_events (env : CoreEnv) :
    (orchRun env).events.filterMap eventStage = (orchRun env).states ∧
      (orchRun env).events.filterMap eventResource =
        (orchRun env).created.map fun r => (r.name, r.resId, r.owned) := by
  cases hp : env.planComplete with
  | false => simp [orchRun, hp, eventStage, eventResource]
  | true =>
    cases he : (provision env.create env.plan).err with
    | some msg =>
      simp [orchRun, hp, he, eventStage, eventResource,
        resourceEvents_stage, resourceEvents_resource]
    | none =>
      cases hs : env.submit with
      | error msg =>
        simp [orchRun, hp, he, hs, eventStage, eventResource,
          resourceEvents_stage, resourceEvents_resource]
      | ok cid =>
        cases hq : pollLoop env.status 0 env.deadline with
        | success =>
          cases hv : env.verifyOk <;>
            simp [orchRun, hp, he, hs, hq, hv, eventStage, eventResource,
              resourceEvents_stage, resourceEvents_resource]
        | failure =>
          simp [orchRun, hp, he, hs, hq, eventStage, eventResource,
            resourceEvents_stage, resourceEvents_resource]
        | timeout =>
          simp [orchRun, hp, he, hs, hq, eventStage, eventResource,
            resourceEvents_stage, resourceEvents_resource]

/-- C7: on any invalid input the Cluster Request Builder returns a single
validation error whose list contains every violated constraint at once —
membership in the returned list coincides with violation — rather than
failing fast on the first violated constraint. -/
theorem builder_enumerates_all_violations (i : BuildInput)
    (h : inputValid i = false) :
    ∃ vs : List Violation, buildRequest i = .error vs ∧ vs ≠ [] ∧
      ∀ v : Violation, v ∈ vs ↔ violationHolds i v = true := by
  cases hs : sizingOk i <;> cases hc : securityOk i <;> cases hn : namingOk i
  · refine ⟨[.sizingOutOfEnvelope, .securityModeInconsistent, .namingInvalid],
      ?_, ?_, ?_⟩
    · simp [buildRequest, hs, hc, hn]
    · simp
    · intro v; cases v <;> simp [violationHolds, hs, hc, hn]
  · refine ⟨[.sizingOutOfEnvelope, .securityModeInconsistent], ?_, ?_, ?_⟩
    · simp [buildRequest, hs, hc, hn]
    · simp
    · intro v; cases v <;> simp [violationHolds, hs, hc, hn]
  · refine ⟨[.sizingOutOfEnvelope, .namingInvalid], ?_, ?_, ?_⟩
    · simp [buildRequest, hs, hc, hn]
    · simp
    · intro v; cases v <;> simp [violationHolds, hs, hc, hn]
  · refine ⟨[.sizingOutOfEnvelope], ?_, ?_, ?_⟩
    · simp [buildRequest, hs, hc, hn]
    · simp
    · intro v; cases v <;> simp [violationHolds, hs, hc, hn]
  · refine ⟨[.securityModeInconsistent, .namingInvalid], ?_, ?_, ?_⟩
    · simp [buildRequest, hs, hc, hn]
    · simp
    · intro v; cases v <;> simp [violationHolds, hs, hc, hn]
  · refine ⟨[.securityModeInconsistent], ?_, ?_, ?_⟩
    · simp [buildRequest, hs, hc, hn]
    · simp
    · intro v; cases v <;> simp [violationHolds, hs, hc, hn]
  · refine ⟨[.namingInvalid], ?_, ?_, ?_⟩
    · simp [buildRequest, hs, hc, hn]
    · simp
    · intro v; cases v <;> simp [violationHolds, hs, hc, hn]
  · rw [inputValid, hs, hc, hn] at h
    exact absurd h (by decide)

/-- Witness for C7: an input violating the sizing and naming constraints
at once; the returned error lists both. -/
theorem builder_enumerates_all_violations_witness :
    inputValid badInput = false ∧
      ∃ vs : List Violation, buildRequest badInput = .error vs ∧ vs ≠ [] ∧
        ∀ v : Violation, v ∈ vs ↔ violationHolds badInput v = true :=
  ⟨by decide, builder_enumerates_all_violations badInput (by decide)⟩

/-- Counterexample for C9 as stated: with an empty cluster key and a
failing `GetAvailableAddOns` call, `run` exits with code 1, not 0. -/
theorem addons_empty_key_exit_cex :
    (runAddons envFetchFail "").exitCode = 1 ∧
      ¬(runAddons envFetchFail "").exitCode = 0 := by
  decide

/-- C9 (amended): with an empty cluster key, `run` skips the cluster-key
validity check and never calls `GetCluster` or `GetClusterAddOns`; it
always calls `GetAvailableAddOns`; when that call succeeds it exits with
code 0 printing the add-on table (or the none-available notice when the
list is empty), and when the fetch fails it prints the error and exits
with code 1. -/
theorem addons_empty_key_behavior (env : OcmEnv) :
    CallEvent.validKeyCheck ∉ (runAddons env "").calls ∧
      CallEvent.getCluster ∉ (runAddons env "").calls ∧
      CallEvent.getClusterAddOns ∉ (runAddons env "").calls ∧
      CallEvent.getAvailableAddOns ∈ (runAddons env "").calls ∧
      (∀ l, env.getAvailableAddOns = .ok l → l.isEmpty = false →
        (runAddons env "").exitCode = 0 ∧
          (runAddons env "").output =
            OutLine.headerLine ["ID", "NAME", "AVAILABILITY"] ::
              l.map (fun a =>
                .rowLine [a.addOnId, a.addOnName, availabilityText a.available])) ∧
      (∀ l, env.getAvailableAddOns = .ok l → l.isEmpty = true →
        (runAddons env "").exitCode = 0 ∧
          (runAddons env "").output =
            [OutLine.infoLine "there are no add-ons available"]) ∧
      (∀ msg, env.getAvailableAddOns = .error msg →
        (runAddons env "").exitCode = 1 ∧
          (runAddons env "").output =
            [OutLine.errorLine "failed to fetch add-ons"]) := by
  cases he : env.getAvailableAddOns with
  | error msg => simp [runAddons, he]
  | ok l =>
    cases hl : l.isEmpty <;> simp [runAddons, he, hl] <;>
      simp_all [List.isEmpty_iff]

/-- Witness for C9 (amended) at an environment with one available add-on:
the command calls `GetAvailableAddOns`, never loads a cluster, exits 0
and prints the one-row add-on table. -/
theorem addons_empty_key_behavior_witness :
    CallEvent.getCluster ∉ (runAddons envOneAddOn "").calls ∧
      CallEvent.getAvailableAddOns ∈ (runAddons envOneAddOn "").calls ∧
      (runAddons envOneAddOn "").exitCode = 0 ∧
      (runAddons envOneAddOn "").output =
        [OutLine.headerLine ["ID", "NAME", "AVAILABILITY"],
          OutLine.rowLine ["a1", "alpha", "available"]] := by
  have h := addons_empty_key_behavior envOneAddOn
  have h2 := h.2.2.2.2.1
    [{ addOnId := "a1", addOnName := "alpha", available := true }] rfl rfl
  exact ⟨h.2.1, h.2.2.2.1, h2.1, by simpa [availabilityText] using h2.2⟩

/-- C10: for a valid, existing cluster key, `run` queries the installed
add-ons exactly when the cluster state is Ready; for a non-Ready cluster
it exits with code 1 and never calls `GetClusterAddOns`. -/
theorem addons_ready_gate (env : OcmEnv) (key : String) (c : Cluster)
    (hk : key ≠ "") (hv : env.isValidClusterKey key = true)
    (hc : env.getCluster = .ok c) :
    (CallEvent.getClusterAddOns ∈ (runAddons env key).calls ↔
        c.state = clusterStateReady) ∧
      (c.state ≠ clusterStateReady → (runAddons env key).exitCode = 1) := by
  have hk2 : (key == "") = false := by simp [hk]
  cases hr : c.state == clusterStateReady with
  | true =>
    have hr2 : c.state = clusterStateReady := by simpa using hr
    cases ha : env.getClusterAddOns with
    | error m => simp [runAddons, hk2, hv, hc, hr, hr2, ha]
    | ok l => cases hl : l.isEmpty <;> simp [runAddons, hk2, hv, hc, hr, hr2, ha, hl]
  | false =>
    have hr2 : ¬c.state = clusterStateReady := by simpa using hr
    simp [runAddons, hk2, hv, hc, hr, hr2]

/-- Witness for C10: a valid key naming an existing cluster that is still
installing — the command exits 1 and never queries installed add-ons. -/
theorem addons_ready_gate_witness :
    ("mycluster" : String) ≠ "" ∧
      envNotReady.isValidClusterKey "mycluster" = true ∧
      envNotReady.getCluster = Except.ok { state := "installing" } ∧
      CallEvent.getClusterAddOns ∉ (runAddons envNotReady "mycluster").calls ∧
      (runAddons envNotReady "mycluster").exitCode = 1 := by
  have h := addons_ready_gate envNotReady "mycluster" { state := "installing" }
    (by decide) (by decide) rfl
  refine ⟨by decide, by decide, rfl, ?_, h.2 (by decide)⟩
  intro hmem
  exact absurd (h.1.mp hmem) (by decide)

end Rosa
